import Mathlib

/-
Verification of the Grok-CLI command-line wrapper (src/grok4_cli.py).

The program is shallowly embedded: the network round trip performed by
requests.post and the local filesystem are oracles supplied as explicit
parameters; Python exceptions are modelled with Except; Python values that
flow through json.load / response.json are modelled by an inductive JsonVal
with Python truthiness made explicit.
-/

/-- Model of the Python values produced by JSON parsing (json.load,
response.json): null, booleans, numbers, strings, lists and dicts.
Numbers are modelled as integers, which suffices for every claim. -/
inductive JsonVal where
  | null : JsonVal
  | bool (b : Bool) : JsonVal
  | num (n : Int) : JsonVal
  | str (s : String) : JsonVal
  | arr (l : List JsonVal) : JsonVal
  | obj (l : List (String × JsonVal)) : JsonVal

/-- Python truthiness of a JSON-shaped value: None, False, 0, empty string,
empty list and empty dict are falsy, everything else is truthy. -/
def JsonVal.truthy : JsonVal → Bool
  | .null => false
  | .bool b => b
  | .num n => n != 0
  | .str s => !s.isEmpty
  | .arr l => !l.isEmpty
  | .obj l => !l.isEmpty

/-- Truthiness of an optional value as Python sees it (dict.get returning
None for a missing key is falsy). -/
def optTruthy : Option JsonVal → Bool
  | none => false
  | some v => v.truthy

/-- Python dict.get with a default: look the key up in the parsed object,
return the default when it is absent. -/
def dictGet (fields : List (String × JsonVal)) (key : String)
    (default : JsonVal) : JsonVal :=
  match fields.lookup key with
  | some v => v
  | none => default

/-- Exceptions that can escape the embedded code: AttributeError from
calling a dict method on a non-dict, TypeError from open(None) or from
iterating a non-iterable. -/
inductive PyError where
  | attributeError : PyError
  | typeError : PyError

/-- Outcome of the single requests.post call in grok_api_call, supplied by
the environment: either a requests.RequestException was raised during the
request, or a response arrived with an HTTP status code and a body.  The
body is none when it cannot be parsed as JSON (response.json() then raises
requests.exceptions.JSONDecodeError, a RequestException subclass), and
some v when it parses to the JSON value v. -/
inductive PostOutcome where
  | requestExn : PostOutcome
  | resp (status : Nat) (body : Option JsonVal) : PostOutcome

/-- Model of response.raise_for_status: an HTTPError (a RequestException)
is raised exactly for status codes 400-599. -/
def raiseForStatus (status : Nat) : Bool :=
  decide (400 ≤ status ∧ status < 600)

/-- Embedding of grok_api_call from src/grok4_cli.py, lines 29-46, given
the outcome of its one network call.  The try block catches exactly
requests.RequestException: a raised request, a 400-599 status and an
unparseable body are all caught and yield the return value None (.ok none).
On a parsed JSON object the dict.get call returns the value of the
"response" field, or the default string "No response received" when the
field is absent.  On parsed JSON that is not an object, .get raises
AttributeError, which is not a RequestException and therefore propagates
out of the function (.error).  The transient progress display is
presentation only and is not modelled. -/
def grok_api_call (outcome : PostOutcome) : Except PyError (Option JsonVal) :=
  match outcome with
  | .requestExn => .ok none
  | .resp status body =>
    if raiseForStatus status then
      .ok none
    else
      match body with
      | none => .ok none
      | some (.obj fields) =>
          .ok (some (dictGet fields "response" (.str "No response received")))
      | some _ => .error .attributeError

/-- Dispatcher as seen by the command handlers: grok_api_call applied to
the network outcome the environment assigns to a given prompt and model
pair.  payload assembly (the JSON body with the prompt and model) is the
argument pair itself. -/
def dispatcherResult (net : String → String → PostOutcome)
    (prompt model : String) : Except PyError (Option JsonVal) :=
  grok_api_call (net prompt model)

/-- Filesystem model: a map from paths to file contents.  os.path.exists is
membership; open(p, 'w') followed by f.write(c) is an update that creates
the file when absent and truncates it when present. -/
abbrev FS := String → Option String

/-- Writing a file: creates or truncates, leaves every other path alone. -/
def FS.write (fs : FS) (path content : String) : FS :=
  fun q => if q = path then some content else fs q

/-- Console messages the handlers emit, kept structured so that error,
success and result-display messages can be told apart; the rich markup is
presentation only and is not modelled. -/
inductive Msg where
  | fileMissing (path : String) : Msg
  | caughtException (context : String) : Msg
  | invalidStep : Msg
  | unsupportedAction (a : JsonVal) : Msg
  | stepSaved (path : String) : Msg
  | stepResult (text : String) : Msg
  | editedSaved (path : String) : Msg
  | createdFile (path : String) : Msg
  | analysisSaved (path : String) : Msg
  | chatReply (text : String) : Msg
  | nlpReply (text : String) : Msg
  | goodbye : Msg

/-- The green success messages: printed only after a completed write. -/
def Msg.isSuccess : Msg → Bool
  | .stepSaved _ | .editedSaved _ | .createdFile _ | .analysisSaved _ => true
  | _ => false

/-- Result of a file-handling command: the filesystem after the command,
the console messages in order, and the prompts sent to the dispatcher in
order. -/
structure Out where
  fs : FS
  msgs : List Msg
  calls : List String

/-- Prompt assembled by edit_file (line 94 of the source). -/
def editPrompt (prompt content : String) : String :=
  "Edit the following code/content: " ++ prompt ++ "\n\nContent:\n" ++ content

/-- Prompt assembled by analyze_data (line 131 of the source). -/
def analyzePrompt (prompt summary : String) : String :=
  "Analyze this data: " ++ prompt ++ "\n\nData:\n" ++ summary

/-- Prompt assembled by nlp (line 146 of the source). -/
def nlpPrompt (task text : String) : String :=
  "Perform NLP task: " ++ task ++ "\n\nText: " ++ text

/-- Python truthiness of the dispatcher result as the handlers test it with
`if response:` — None and the empty string are falsy. -/
def respTruthy : Option String → Bool
  | none => false
  | some s => !s.isEmpty

/-- Embedding of edit_file (source lines 84-103).  The dispatcher is the
oracle disp from full prompt to returned value (None on failure), the
usual shape of grok_api_call's result.  Control flow: missing input file
reports an error and returns; otherwise the file is read, the prompt
assembled and dispatched; a truthy response is written to `output or
filename` (Python or: None and the empty string both fall back to the
source filename) followed by a success message; a falsy response does
nothing further. -/
def edit_file (fs : FS) (filename prompt : String) (output : Option String)
    (disp : String → Option String) : Out :=
  match fs filename with
  | none => { fs := fs, msgs := [.fileMissing filename], calls := [] }
  | some content =>
    let full_prompt := editPrompt prompt content
    let response := disp full_prompt
    if respTruthy response then
      let output_file :=
        match output with
        | some o => if o.isEmpty then filename else o
        | none => filename
      { fs := fs.write output_file (response.getD ""),
        msgs := [.editedSaved output_file],
        calls := [full_prompt] }
    else
      { fs := fs, msgs := [], calls := [full_prompt] }

/-- Embedding of create_file (source lines 108-115): writes the literal
content to the path and prints a success message; no dispatcher call is
made (calls is always empty). -/
def create_file (fs : FS) (filename content : String) : Out :=
  { fs := fs.write filename content,
    msgs := [.createdFile filename],
    calls := [] }

/-- Embedding of analyze_data (source lines 121-139).  csvRender is the
oracle for pd.read_csv followed by df.to_string: none when read_csv raises
on the file content (caught by the handler's except clause), some summary
otherwise.  A truthy dispatcher response is written to the output path
(the click option defaults to "output.csv") with a success message; a
falsy one does nothing further. -/
def analyze_data (fs : FS) (data_file prompt output : String)
    (csvRender : String → Option String)
    (disp : String → Option String) : Out :=
  match fs data_file with
  | none => { fs := fs, msgs := [.fileMissing data_file], calls := [] }
  | some content =>
    match csvRender content with
    | none => { fs := fs, msgs := [.caughtException "data analysis"], calls := [] }
    | some data_summary =>
      let full_prompt := analyzePrompt prompt data_summary
      let response := disp full_prompt
      if respTruthy response then
        { fs := fs.write output (response.getD ""),
          msgs := [.analysisSaved output],
          calls := [full_prompt] }
      else
        { fs := fs, msgs := [], calls := [full_prompt] }

/-- Embedding of nlp (source lines 144-149): assembles the prompt,
dispatches once, and displays a truthy response.  No filesystem access;
the result is the messages and the dispatched prompts. -/
def nlp (text task : String) (disp : String → Option String) :
    List Msg × List String :=
  let full_prompt := nlpPrompt task text
  let response := disp full_prompt
  (if respTruthy response then [.nlpReply (response.getD "")] else [],
   [full_prompt])

/-- Lowercasing as the chat loop applies it to the input line, mapping
ASCII uppercase letters to lowercase (Python str.lower agrees with the
ASCII Char.toLower on every letter that spells a casing of exit). -/
def strLower (s : String) : String := ⟨s.data.map Char.toLower⟩

/-- Embedding of the chat loop (source lines 70-78) on a finite stream of
input lines.  A line whose lowercasing is "exit" prints the goodbye
message and ends the loop, with no dispatcher call for that line; any
other line is dispatched once, a truthy response is displayed, and the
loop continues with the remaining lines.  Returns the messages and the
dispatched prompts in order. -/
def chat (disp : String → Option String) :
    List String → List Msg × List String
  | [] => ([], [])
  | line :: rest =>
    if strLower line = "exit" then
      ([.goodbye], [])
    else
      let response := disp line
      let tail := chat disp rest
      ((if respTruthy response then [.chatReply (response.getD "")] else [])
         ++ tail.1,
       line :: tail.2)

/-- State threaded through the workflow loop: the filesystem, the console
messages so far, and the prompts dispatched so far (workflow prompts are
arbitrary JSON values, since json.load can put any value under "prompt"
and the handler passes it to grok_api_call unchanged). -/
structure WFState where
  fs : FS
  msgs : List Msg
  calls : List JsonVal

/-- One iteration of the workflow loop body (source lines 163-181) on one
step value.  Except models the Python exceptions that escape the loop body
to the handler's outer except clause, carrying the state at the moment of
the raise: step.get on a non-dict step raises AttributeError, and on a
save action open(output_file, 'w') raises TypeError when output_file is
missing or not a string.  A step missing a truthy prompt or action prints
the invalid-step warning and continues; a falsy dispatcher response does
nothing further; action values are compared with the strings save and
print, anything else printing the unsupported-action warning. -/
def runStep (disp : JsonVal → Option String) (st : WFState)
    (step : JsonVal) : Except WFState WFState :=
  match step with
  | .obj fields =>
    let prompt := fields.lookup "prompt"
    let action := fields.lookup "action"
    let output_file := fields.lookup "output_file"
    if !optTruthy prompt || !optTruthy action then
      .ok { st with msgs := st.msgs ++ [.invalidStep] }
    else
      let p := prompt.getD .null
      let response := disp p
      let st1 : WFState := { st with calls := st.calls ++ [p] }
      if respTruthy response then
        match action with
        | some (.str a) =>
          if a = "save" then
            match output_file with
            | some (.str o) =>
              .ok { st1 with
                      fs := st1.fs.write o (response.getD ""),
                      msgs := st1.msgs ++ [.stepSaved o] }
            | _ => .error st1
          else if a = "print" then
            .ok { st1 with
                    msgs := st1.msgs ++ [.stepResult (response.getD "")] }
          else
            .ok { st1 with
                    msgs := st1.msgs ++ [.unsupportedAction (.str a)] }
        | some a =>
          .ok { st1 with msgs := st1.msgs ++ [.unsupportedAction a] }
        | none => .ok st1
      else
        .ok st1
  | _ => .error st

/-- The workflow loop over the list of steps, in file order; a raise in
one iteration aborts the remaining iterations. -/
def runSteps (disp : JsonVal → Option String) (st : WFState) :
    List JsonVal → Except WFState WFState
  | [] => .ok st
  | step :: rest =>
    match runStep disp st step with
    | .ok st1 => runSteps disp st1 rest
    | .error st1 => .error st1

/-- Iterating the value of the "steps" field as Python does: a list yields
its elements, a string yields its characters as one-character strings, a
dict yields its keys; null, booleans and numbers are not iterable and
raise TypeError. -/
def iterSteps : JsonVal → Option (List JsonVal)
  | .arr l => some l
  | .str s => some (s.toList.map fun c => JsonVal.str (String.singleton c))
  | .obj l => some (l.map fun kv => JsonVal.str kv.1)
  | _ => none

/-- Embedding of automate_workflow (source lines 153-183).  parseJson is
the oracle for json.load on the workflow file content: none when it raises
(caught by the outer except clause).  workflow.get("steps", []) requires
the parsed value to be a dict (otherwise AttributeError, caught);
a missing "steps" key defaults to the empty list.  Any exception escaping
the loop is caught by the outer except clause, which prints the caught
error after the messages already produced. -/
def automate_workflow (fs : FS) (workflow_file : String)
    (parseJson : String → Option JsonVal)
    (disp : JsonVal → Option String) : WFState :=
  match fs workflow_file with
  | none => { fs := fs, msgs := [.fileMissing workflow_file], calls := [] }
  | some content =>
    match parseJson content with
    | none =>
      { fs := fs, msgs := [.caughtException "workflow automation"], calls := [] }
    | some workflow =>
      match workflow with
      | .obj wfields =>
        let stepsVal := dictGet wfields "steps" (.arr [])
        match iterSteps stepsVal with
        | none =>
          { fs := fs, msgs := [.caughtException "workflow automation"],
            calls := [] }
        | some steps =>
          match runSteps disp { fs := fs, msgs := [], calls := [] } steps with
          | .ok st => st
          | .error st =>
            { st with msgs := st.msgs ++ [.caughtException "workflow automation"] }
      | _ =>
        { fs := fs, msgs := [.caughtException "workflow automation"], calls := [] }

/-- Concrete filesystem fixture with one file a.txt holding "old". -/
def fsA : FS := fun p => if p = "a.txt" then some "old" else none

/-- Dispatcher fixture that always fails (network error). -/
def dispNone : String → Option String := fun _ => none

/-- Dispatcher fixture that always returns the string "new". -/
def dispNew : String → Option String := fun _ => some "new"

/-- Dispatcher fixture that always returns the empty string. -/
def dispEmpty : String → Option String := fun _ => some ""

/-- CSV-rendering fixture: pd.read_csv plus df.to_string modelled as the
identity rendering that never raises. -/
def csvId : String → Option String := fun s => some s

/-- Workflow dispatcher fixture that always fails. -/
def dispWNone : JsonVal → Option String := fun _ => none

/-- Workflow dispatcher fixture that always returns the string "resp". -/
def dispWResp : JsonVal → Option String := fun _ => some "resp"

/-- Workflow dispatcher fixture that always returns the empty string. -/
def dispWEmpty : JsonVal → Option String := fun _ => some ""

/-- Initial workflow state over the fixture filesystem. -/
def st0 : WFState := { fs := fsA, msgs := [], calls := [] }

/-- Workflow step fixture: a save step with no output_file key. -/
def wfStepSaveNoOutput : JsonVal :=
  .obj [("prompt", .str "p1"), ("action", .str "save")]

/-- Workflow step fixture: a well-formed print step. -/
def wfStepPrint2 : JsonVal :=
  .obj [("prompt", .str "p2"), ("action", .str "print")]

/-- Workflow definition fixture: the save-without-output step followed by
the print step. -/
def wfJson : JsonVal := .obj [("steps", .arr [wfStepSaveNoOutput, wfStepPrint2])]

/-- Filesystem fixture holding the workflow file. -/
def fsW : FS := fun p => if p = "wf.json" then some "W" else none

/-- Parsing fixture: json.load returns the workflow fixture for the
workflow file content. -/
def parseW : String → Option JsonVal := fun s => if s = "W" then some wfJson else none

/-- Claim C1 (amended): for the failure classes the dispatcher's try block
is written for — a raised request exception, an HTTP status in 400-599,
and a body that does not parse as JSON — grok_api_call returns None to its
caller instead of propagating an exception.  (The claim's blanket
"never propagates an exception" fails on a parsed JSON body that is not an
object; see the counterexample.) -/
theorem grok_api_call_caught_failures (s : Nat) (b : Option JsonVal)
    (h4 : 400 ≤ s) (h6 : s < 600) :
    grok_api_call PostOutcome.requestExn = Except.ok none ∧
    grok_api_call (PostOutcome.resp s b) = Except.ok none ∧
    ∀ s2 : Nat, grok_api_call (PostOutcome.resp s2 none) = Except.ok none := by
  refine ⟨rfl, ?_, ?_⟩
  · have hrs : raiseForStatus s = true := by
      simp [raiseForStatus]; omega
    simp [grok_api_call, hrs]
  · intro s2
    by_cases h : raiseForStatus s2 = true <;> simp [grok_api_call, h]

/-- Witness for grok_api_call_caught_failures at status 404 with a string
body. -/
theorem grok_api_call_caught_failures_witness :
    grok_api_call PostOutcome.requestExn = Except.ok none ∧
    grok_api_call (PostOutcome.resp 404 (some (JsonVal.str "oops"))) =
      Except.ok none ∧
    ∀ s2 : Nat, grok_api_call (PostOutcome.resp s2 none) = Except.ok none :=
  grok_api_call_caught_failures 404 (some (JsonVal.str "oops"))
    (by decide) (by decide)

/-- Claim C1 counterexample: on HTTP success with the well-formed JSON
body [] (valid JSON, not an object), the .get call raises AttributeError,
which the except clause does not catch, so the dispatcher propagates an
exception to its caller rather than returning a failure value. -/
theorem grok_api_call_nonobject_body_raises :
    grok_api_call (PostOutcome.resp 200 (some (JsonVal.arr []))) =
      Except.error PyError.attributeError := rfl

/-- Claim C2 (amended): on HTTP success with a JSON object body, the value
of the "response" field is returned as-is when the field is present; when
the field is absent the dispatcher returns the placeholder string
"No response received" as a success value, not a failure.  (The claim's
"absence is treated as failure" fails; see the counterexample.) -/
theorem grok_api_call_field_extraction (s : Nat)
    (fields : List (String × JsonVal)) (v : JsonVal) (hs : s < 400) :
    (fields.lookup "response" = some v →
      grok_api_call (PostOutcome.resp s (some (JsonVal.obj fields))) =
        Except.ok (some v)) ∧
    (fields.lookup "response" = none →
      grok_api_call (PostOutcome.resp s (some (JsonVal.obj fields))) =
        Except.ok (some (JsonVal.str "No response received"))) := by
  have hrs : raiseForStatus s = false := by
    simp [raiseForStatus]; omega
  constructor <;> intro h <;> simp [grok_api_call, hrs, dictGet, h]

/-- Witness for grok_api_call_field_extraction at status 200 with the
field present holding "hi". -/
theorem grok_api_call_field_extraction_witness :
    [("response", JsonVal.str "hi")].lookup "response" =
        some (JsonVal.str "hi") ∧
    grok_api_call
        (PostOutcome.resp 200 (some (JsonVal.obj [("response", JsonVal.str "hi")]))) =
      Except.ok (some (JsonVal.str "hi")) :=
  ⟨rfl,
   (grok_api_call_field_extraction 200 [("response", JsonVal.str "hi")]
      (JsonVal.str "hi") (by decide)).1 rfl⟩

/-- Claim C2 counterexample: on HTTP success with the JSON object body
that lacks the "response" field, the dispatcher returns the truthy
placeholder string rather than the failure value None. -/
theorem grok_api_call_missing_field_not_failure :
    grok_api_call (PostOutcome.resp 200 (some (JsonVal.obj []))) =
      Except.ok (some (JsonVal.str "No response received")) ∧
    grok_api_call (PostOutcome.resp 200 (some (JsonVal.obj []))) ≠
      Except.ok none := by
  refine ⟨rfl, ?_⟩
  rw [show grok_api_call (PostOutcome.resp 200 (some (JsonVal.obj []))) =
        Except.ok (some (JsonVal.str "No response received")) from rfl]
  simp

/-- Claim C3 counterexample: in the workflow fixture, step 1 is a save
step whose output_file key is missing, so applying its action raises a
TypeError from open(None, 'w'); the outer except clause catches it and the
loop is abandoned, so step 2 — a well-formed print step whose dispatcher
call would succeed — is never attempted: the only dispatched prompt is
step 1's, and the only message is the caught-exception report (no workflow
result display for step 2). -/
theorem workflow_save_io_error_halts_rest :
    (automate_workflow fsW "wf.json" parseW dispWResp).calls =
      [JsonVal.str "p1"] ∧
    (automate_workflow fsW "wf.json" parseW dispWResp).msgs =
      [Msg.caughtException "workflow automation"] :=
  ⟨rfl, rfl⟩

/-- Claim C3 (amended): workflow steps run strictly in file order, a
network failure on a step (dispatcher returning None) does not prevent the
subsequent steps from being attempted, but an exception raised while
applying a step's action (for instance a save step whose output path is
missing) aborts all remaining steps. -/
theorem workflow_network_failure_independence
    (dispW : JsonVal → Option String) (st st2 st3 : WFState)
    (fields : List (String × JsonVal)) (step : JsonVal)
    (rest : List JsonVal)
    (hp : optTruthy (fields.lookup "prompt") = true)
    (ha : optTruthy (fields.lookup "action") = true)
    (hd : dispW ((fields.lookup "prompt").getD JsonVal.null) = none) :
    runSteps dispW st (JsonVal.obj fields :: rest) =
      runSteps dispW
        { st with
            calls := st.calls ++ [(fields.lookup "prompt").getD JsonVal.null] }
        rest ∧
    (runStep dispW st2 step = Except.error st3 →
      runSteps dispW st2 (step :: rest) = Except.error st3) := by
  constructor
  · have h1 : runStep dispW st (JsonVal.obj fields) =
        Except.ok { st with
          calls := st.calls ++ [(fields.lookup "prompt").getD JsonVal.null] } := by
      simp [runStep, hp, ha, hd, respTruthy]
    simp [runSteps, h1]
  · intro h
    simp [runSteps, h]

/-- Witness for workflow_network_failure_independence: a failing
dispatcher on a print step continues into the remaining step, and a
non-dict step raises and aborts. -/
theorem workflow_network_failure_independence_witness :
    runSteps dispWNone st0
        (JsonVal.obj [("prompt", JsonVal.str "p"), ("action", JsonVal.str "print")]
          :: [wfStepPrint2]) =
      runSteps dispWNone { st0 with calls := st0.calls ++ [JsonVal.str "p"] }
        [wfStepPrint2] ∧
    (runStep dispWNone st0 (JsonVal.str "x") = Except.error st0 →
      runSteps dispWNone st0 (JsonVal.str "x" :: [wfStepPrint2]) =
        Except.error st0) :=
  workflow_network_failure_independence dispWNone st0 st0 st0
    [("prompt", JsonVal.str "p"), ("action", JsonVal.str "print")]
    (JsonVal.str "x") [wfStepPrint2] rfl rfl rfl

/-- Claim C4: when the dispatcher returns the failure value None, the
file-edit command, the data-analysis command and a workflow step each
perform no file write and print no success message (their handlers test
the response with an if whose write and success-print both sit in the
truthy branch). -/
theorem dispatcher_failure_no_write_no_success
    (fs : FS) (filename prompt content : String) (output : Option String)
    (disp1 : String → Option String)
    (data_file aprompt content2 summary output_path : String)
    (csvRender : String → Option String) (disp2 : String → Option String)
    (dispW : JsonVal → Option String) (st : WFState)
    (fields : List (String × JsonVal))
    (hc : fs filename = some content)
    (hd1 : disp1 (editPrompt prompt content) = none)
    (hc2 : fs data_file = some content2)
    (hcsv : csvRender content2 = some summary)
    (hd2 : disp2 (analyzePrompt aprompt summary) = none)
    (hp : optTruthy (fields.lookup "prompt") = true)
    (ha : optTruthy (fields.lookup "action") = true)
    (hd3 : dispW ((fields.lookup "prompt").getD JsonVal.null) = none) :
    edit_file fs filename prompt output disp1 =
      { fs := fs, msgs := [], calls := [editPrompt prompt content] } ∧
    analyze_data fs data_file aprompt output_path csvRender disp2 =
      { fs := fs, msgs := [], calls := [analyzePrompt aprompt summary] } ∧
    runStep dispW st (JsonVal.obj fields) =
      Except.ok { st with
        calls := st.calls ++ [(fields.lookup "prompt").getD JsonVal.null] } := by
  refine ⟨?_, ?_, ?_⟩
  · simp [edit_file, hc, hd1, respTruthy]
  · simp [analyze_data, hc2, hcsv, hd2, respTruthy]
  · simp [runStep, hp, ha, hd3, respTruthy]

/-- Witness for dispatcher_failure_no_write_no_success on the fixture
filesystem with the always-failing dispatchers. -/
theorem dispatcher_failure_no_write_no_success_witness :
    edit_file fsA "a.txt" "p" none dispNone =
      { fs := fsA, msgs := [], calls := [editPrompt "p" "old"] } ∧
    analyze_data fsA "a.txt" "q" "output.csv" csvId dispNone =
      { fs := fsA, msgs := [], calls := [analyzePrompt "q" "old"] } ∧
    runStep dispWNone st0
        (JsonVal.obj [("prompt", JsonVal.str "p"), ("action", JsonVal.str "print")]) =
      Except.ok { st0 with calls := st0.calls ++ [JsonVal.str "p"] } :=
  dispatcher_failure_no_write_no_success fsA "a.txt" "p" "old" none dispNone
    "a.txt" "q" "old" "old" "output.csv" csvId dispNone dispWNone st0
    [("prompt", JsonVal.str "p"), ("action", JsonVal.str "print")]
    rfl rfl rfl rfl rfl rfl rfl rfl

/-- Claim C5: for each command that requires a local input file, a path
that does not exist produces the missing-file error message, no dispatcher
call, and a filesystem identical to the one before the command. -/
theorem missing_input_file_no_side_effects
    (fs : FS) (filename prompt data_file aprompt output_path wf_file : String)
    (output : Option String)
    (csvRender : String → Option String) (disp : String → Option String)
    (parseJson : String → Option JsonVal) (dispW : JsonVal → Option String)
    (h1 : fs filename = none) (h2 : fs data_file = none)
    (h3 : fs wf_file = none) :
    edit_file fs filename prompt output disp =
      { fs := fs, msgs := [Msg.fileMissing filename], calls := [] } ∧
    analyze_data fs data_file aprompt output_path csvRender disp =
      { fs := fs, msgs := [Msg.fileMissing data_file], calls := [] } ∧
    automate_workflow fs wf_file parseJson dispW =
      { fs := fs, msgs := [Msg.fileMissing wf_file], calls := [] } := by
  refine ⟨?_, ?_, ?_⟩
  · simp [edit_file, h1]
  · simp [analyze_data, h2]
  · simp [automate_workflow, h3]

/-- Witness for missing_input_file_no_side_effects at the path nope.txt,
absent from the fixture filesystem. -/
theorem missing_input_file_no_side_effects_witness :
    edit_file fsA "nope.txt" "p" none dispNone =
      { fs := fsA, msgs := [Msg.fileMissing "nope.txt"], calls := [] } ∧
    analyze_data fsA "nope.txt" "q" "output.csv" csvId dispNone =
      { fs := fsA, msgs := [Msg.fileMissing "nope.txt"], calls := [] } ∧
    automate_workflow fsA "nope.txt" parseW dispWNone =
      { fs := fsA, msgs := [Msg.fileMissing "nope.txt"], calls := [] } :=
  missing_input_file_no_side_effects fsA "nope.txt" "p" "nope.txt" "q"
    "output.csv" "nope.txt" none csvId dispNone parseW dispWNone rfl rfl rfl

/-- Claim C6 counterexample: with the output path option provided as the
empty string, Python's `output or filename` falls back to the source
filename, so the source file a.txt (previously "old") is overwritten with
the dispatcher response "new" even though an output path was provided. -/
theorem edit_file_empty_output_overwrites_source :
    fsA "a.txt" = some "old" ∧
    (edit_file fsA "a.txt" "p" (some "") dispNew).fs "a.txt" = some "new" :=
  ⟨rfl, rfl⟩

/-- Claim C6 (amended): on a successful dispatcher response, the file-edit
command overwrites the source file when the output option is omitted or
empty (both are falsy in `output or filename`); when a non-empty output
path is provided the content is written there, and when that path differs
from the source path the source file is left unmodified. -/
theorem edit_file_output_routing
    (fs : FS) (filename prompt o content r : String)
    (disp : String → Option String)
    (hc : fs filename = some content)
    (hd : disp (editPrompt prompt content) = some r)
    (hr : r ≠ "") :
    (edit_file fs filename prompt none disp).fs filename = some r ∧
    (edit_file fs filename prompt (some "") disp).fs filename = some r ∧
    (o ≠ "" → (edit_file fs filename prompt (some o) disp).fs o = some r) ∧
    (o ≠ "" → o ≠ filename →
      (edit_file fs filename prompt (some o) disp).fs filename = fs filename) := by
  have hie : r.isEmpty = false := by
    cases hb : r.isEmpty
    · rfl
    · exact absurd ((String.isEmpty_iff r).mp hb) hr
  refine ⟨?_, ?_, ?_, ?_⟩
  · simp [edit_file, hc, hd, respTruthy, hie, FS.write]
  · simp +decide [edit_file, hc, hd, respTruthy, hie, FS.write]
  · intro ho
    have hoe : o.isEmpty = false := by
      cases hb : o.isEmpty
      · rfl
      · exact absurd ((String.isEmpty_iff o).mp hb) ho
    simp [edit_file, hc, hd, respTruthy, hie, hoe, FS.write]
  · intro ho hof
    have hoe : o.isEmpty = false := by
      cases hb : o.isEmpty
      · rfl
      · exact absurd ((String.isEmpty_iff o).mp hb) ho
    have hfo : filename ≠ o := Ne.symm hof
    simp [edit_file, hc, hd, respTruthy, hie, hoe, hfo, FS.write]

/-- Witness for edit_file_output_routing on the fixture filesystem, with
the output path b.txt distinct from the source a.txt. -/
theorem edit_file_output_routing_witness :
    (edit_file fsA "a.txt" "p" none dispNew).fs "a.txt" = some "new" ∧
    (edit_file fsA "a.txt" "p" (some "b.txt") dispNew).fs "b.txt" = some "new" ∧
    (edit_file fsA "a.txt" "p" (some "b.txt") dispNew).fs "a.txt" = fsA "a.txt" := by
  have h := edit_file_output_routing fsA "a.txt" "p" "b.txt" "old" "new"
    dispNew rfl rfl (by decide)
  exact ⟨h.1, h.2.2.1 (by decide), h.2.2.2 (by decide) (by decide)⟩

/-- Claim C7: in the chat loop, a line that lowercases to exit prints the
goodbye message and terminates with no dispatcher call for that line (and
none for any later line of the stream); any other line is dispatched
exactly once, in front of the calls of the remaining lines, and the loop
continues. -/
theorem chat_exit_sentinel_and_dispatch
    (disp : String → Option String) (line : String) (rest : List String) :
    (strLower line = "exit" → chat disp (line :: rest) = ([Msg.goodbye], [])) ∧
    (strLower line ≠ "exit" →
      (chat disp (line :: rest)).2 = line :: (chat disp rest).2) := by
  constructor
  · intro h
    simp [chat, h]
  · intro h
    simp [chat, h]

/-- Witness for chat_exit_sentinel_and_dispatch: the line EXIT terminates
with no dispatcher call, and the line hi is dispatched once. -/
theorem chat_exit_sentinel_and_dispatch_witness :
    chat dispNone ["EXIT", "hi"] = ([Msg.goodbye], []) ∧
    (chat dispNone ["hi"]).2 = "hi" :: (chat dispNone []).2 :=
  ⟨(chat_exit_sentinel_and_dispatch dispNone "EXIT" ["hi"]).1 rfl,
   (chat_exit_sentinel_and_dispatch dispNone "hi" []).2 (by decide)⟩

/-- Claim C8: a workflow step whose prompt or action is missing (or falsy)
is skipped with the invalid-step warning and no dispatcher call; a step
whose action is a string other than save and print is dispatched but then
produces only the unsupported-action warning — no file write and no
result display. -/
theorem workflow_step_validation
    (dispW : JsonVal → Option String) (st : WFState)
    (fields fields2 : List (String × JsonVal)) (a r : String)
    (hinv : (!optTruthy (fields.lookup "prompt") ||
             !optTruthy (fields.lookup "action")) = true)
    (hp : optTruthy (fields2.lookup "prompt") = true)
    (ha : fields2.lookup "action" = some (JsonVal.str a))
    (hane : a ≠ "") (hs : a ≠ "save") (hpr : a ≠ "print")
    (hd : dispW ((fields2.lookup "prompt").getD JsonVal.null) = some r)
    (hr : r ≠ "") :
    runStep dispW st (JsonVal.obj fields) =
      Except.ok { st with msgs := st.msgs ++ [Msg.invalidStep] } ∧
    runStep dispW st (JsonVal.obj fields2) =
      Except.ok { st with
        msgs := st.msgs ++ [Msg.unsupportedAction (JsonVal.str a)],
        calls := st.calls ++ [(fields2.lookup "prompt").getD JsonVal.null] } := by
  have hae : a.isEmpty = false := by
    cases hb : a.isEmpty
    · rfl
    · exact absurd ((String.isEmpty_iff a).mp hb) hane
  have hre : r.isEmpty = false := by
    cases hb : r.isEmpty
    · rfl
    · exact absurd ((String.isEmpty_iff r).mp hb) hr
  have hat : optTruthy (some (JsonVal.str a)) = true := by
    simp [optTruthy, JsonVal.truthy, hae]
  have hrr : respTruthy (some r) = true := by
    simp [respTruthy, hre]
  constructor
  · simp [runStep, hinv]
  · simp [runStep, hp, hat, ha, hd, hrr, hs, hpr]

/-- Witness for workflow_step_validation: a step lacking a prompt is
skipped, and a step with action bogus gets the unsupported-action
warning. -/
theorem workflow_step_validation_witness :
    runStep dispWResp st0 (JsonVal.obj [("action", JsonVal.str "print")]) =
      Except.ok { st0 with msgs := st0.msgs ++ [Msg.invalidStep] } ∧
    runStep dispWResp st0
        (JsonVal.obj [("prompt", JsonVal.str "p"), ("action", JsonVal.str "bogus")]) =
      Except.ok { st0 with
        msgs := st0.msgs ++ [Msg.unsupportedAction (JsonVal.str "bogus")],
        calls := st0.calls ++ [JsonVal.str "p"] } :=
  workflow_step_validation dispWResp st0 [("action", JsonVal.str "print")]
    [("prompt", JsonVal.str "p"), ("action", JsonVal.str "bogus")]
    "bogus" "resp" rfl rfl rfl (by decide) (by decide) (by decide) rfl
    (by decide)

/-- Claim C9: the file-create command makes no dispatcher call, writes
exactly the literal content to the given path — creating the file when
absent and truncating it when present — and touches no other path. -/
theorem create_file_literal_write_no_dispatch
    (fs : FS) (filename content q : String) :
    (create_file fs filename content).calls = [] ∧
    (create_file fs filename content).msgs = [Msg.createdFile filename] ∧
    (create_file fs filename content).fs filename = some content ∧
    (q ≠ filename → (create_file fs filename content).fs q = fs q) := by
  refine ⟨rfl, rfl, ?_, ?_⟩
  · simp [create_file, FS.write]
  · intro hq
    simp [create_file, FS.write, hq]

/-- Witness for create_file_literal_write_no_dispatch: creating n.txt with
content hello on the fixture filesystem leaves a.txt alone. -/
theorem create_file_literal_write_no_dispatch_witness :
    (create_file fsA "n.txt" "hello").calls = [] ∧
    (create_file fsA "n.txt" "hello").msgs = [Msg.createdFile "n.txt"] ∧
    (create_file fsA "n.txt" "hello").fs "n.txt" = some "hello" ∧
    ("a.txt" ≠ "n.txt" → (create_file fsA "n.txt" "hello").fs "a.txt" = fsA "a.txt") :=
  create_file_literal_write_no_dispatch fsA "n.txt" "hello" "a.txt"

/-- Claim C10: a dispatcher result that is the empty string fails the
handlers' truthiness test exactly like None: the file-edit and
data-analysis commands write nothing and print nothing, a workflow step
performs no write and adds no message, the chat loop displays nothing for
that line, and the nlp command displays nothing. -/
theorem empty_response_treated_as_failure
    (fs : FS) (filename prompt content : String) (output : Option String)
    (disp1 : String → Option String)
    (data_file aprompt content2 summary output_path : String)
    (csvRender : String → Option String) (disp2 : String → Option String)
    (dispW : JsonVal → Option String) (st : WFState)
    (fields : List (String × JsonVal))
    (disp3 : String → Option String) (line : String) (rest : List String)
    (text task : String) (disp4 : String → Option String)
    (hc : fs filename = some content)
    (hd1 : disp1 (editPrompt prompt content) = some "")
    (hc2 : fs data_file = some content2)
    (hcsv : csvRender content2 = some summary)
    (hd2 : disp2 (analyzePrompt aprompt summary) = some "")
    (hp : optTruthy (fields.lookup "prompt") = true)
    (ha : optTruthy (fields.lookup "action") = true)
    (hd3 : dispW ((fields.lookup "prompt").getD JsonVal.null) = some "")
    (hnx : strLower line ≠ "exit")
    (hd4 : disp3 line = some "")
    (hd5 : disp4 (nlpPrompt task text) = some "") :
    edit_file fs filename prompt output disp1 =
      { fs := fs, msgs := [], calls := [editPrompt prompt content] } ∧
    analyze_data fs data_file aprompt output_path csvRender disp2 =
      { fs := fs, msgs := [], calls := [analyzePrompt aprompt summary] } ∧
    runStep dispW st (JsonVal.obj fields) =
      Except.ok { st with
        calls := st.calls ++ [(fields.lookup "prompt").getD JsonVal.null] } ∧
    (chat disp3 (line :: rest)).1 = (chat disp3 rest).1 ∧
    nlp text task disp4 = ([], [nlpPrompt task text]) := by
  have hrt : respTruthy (some "") = false := by decide
  refine ⟨?_, ?_, ?_, ?_, ?_⟩
  · simp [edit_file, hc, hd1, hrt]
  · simp [analyze_data, hc2, hcsv, hd2, hrt]
  · simp [runStep, hp, ha, hd3, hrt]
  · simp [chat, hnx, hd4, hrt]
  · simp [nlp, hd5, hrt]

/-- Witness for empty_response_treated_as_failure with the dispatchers
that return the empty string on the fixture filesystem. -/
theorem empty_response_treated_as_failure_witness :
    edit_file fsA "a.txt" "p" none dispEmpty =
      { fs := fsA, msgs := [], calls := [editPrompt "p" "old"] } ∧
    analyze_data fsA "a.txt" "q" "output.csv" csvId dispEmpty =
      { fs := fsA, msgs := [], calls := [analyzePrompt "q" "old"] } ∧
    runStep dispWEmpty st0
        (JsonVal.obj [("prompt", JsonVal.str "p"), ("action", JsonVal.str "print")]) =
      Except.ok { st0 with calls := st0.calls ++ [JsonVal.str "p"] } ∧
    (chat dispEmpty ["hi"]).1 = (chat dispEmpty []).1 ∧
    nlp "t" "k" dispEmpty = ([], [nlpPrompt "k" "t"]) :=
  empty_response_treated_as_failure fsA "a.txt" "p" "old" none dispEmpty
    "a.txt" "q" "old" "old" "output.csv" csvId dispEmpty dispWEmpty st0
    [("prompt", JsonVal.str "p"), ("action", JsonVal.str "print")]
    dispEmpty "hi" [] "t" "k" dispEmpty
    rfl rfl rfl rfl rfl rfl rfl rfl (by decide) rfl rfl
